import Mathlib

/-!
Verification of the agentsh + Daytona security demo harness (`example.py`).

The harness's execution-control layer is embedded shallowly:

* Python strings are modelled as `List Char` (`PyStr`), so that slicing
  `s[:150]` is `List.take 150`, `len` is `List.length`, and `str.strip()` is
  `pyStrip`.
* The remote collaborators (`daytona.create`, `daytona.get`,
  `sandbox.process.exec`, `daytona.delete`) are oracles: the outcome of each
  remote call is an input to the model, and the model records the sequence of
  externally visible actions it performs as a trace of `Event`s.
* `signal.alarm` / `timeout_handler` is modelled by an explicit armed/disarmed
  alarm state threaded through the trace, and (for the timing claim) by an
  explicit duration semantics `alarmGuardedExec`.
-/

namespace AgentshDaytona

/-- A Python string: a list of code points, so slicing and `len` are exact. -/
abbrev PyStr := List Char

/-- Coercion from a Lean string literal to the Python-string model. -/
def pyString (s : String) : PyStr := s.data

/-- Python `str.strip()`: drop leading and trailing whitespace. -/
def pyStrip (s : PyStr) : PyStr :=
  ((s.dropWhile Char.isWhitespace).reverse.dropWhile Char.isWhitespace).reverse

/-- The value returned by `sandbox.process.exec`: `result` is the captured
output (`none` models Python `None`), `exit_code` the remote exit code. -/
structure ExecResult where
  result : Option PyStr
  exit_code : Int
deriving DecidableEq

/-- How one guarded remote call ends, as observed by the `try` in `test` (and
by the readiness probe): a normal return, the `TimeoutError` raised by
`timeout_handler` when the alarm fires, or any other exception. -/
inductive CallOutcome where
  | ok (r : ExecResult)
  | timedOut
  | err (msg : String)
deriving DecidableEq

/-- `output = result.result.strip() if result.result else "(no output)"`
(line 97): the placeholder is substituted when the raw output is falsy
(`None` or the empty string); otherwise the output is stripped. -/
def normalizeOutput (result : Option PyStr) : PyStr :=
  match result with
  | none => pyString "(no output)"
  | some s => if s = [] then pyString "(no output)" else pyStrip s

/-- `if len(output) > 150: output = output[:150] + "..."` (lines 99-100). -/
def truncateOutput (s : PyStr) : PyStr :=
  if 150 < s.length then s.take 150 ++ pyString "..." else s

/-- The value `test` returns on each outcome: the remote exit code on a normal
return (line 103), the sentinel `-1` on timeout (line 107) and on any other
exception (line 111). -/
def exitCodeOf (o : CallOutcome) : Int :=
  match o with
  | .ok r => r.exit_code
  | .timedOut => -1
  | .err _ => -1

/-- The lines `test` prints after the guarded call, per outcome
(lines 101-102, 106, 110). -/
def tailPrints (o : CallOutcome) : List String :=
  match o with
  | .ok r =>
    ["       Output: " ++ String.mk (truncateOutput (normalizeOutput r.result)),
     "       Exit code: " ++ toString r.exit_code]
  | .timedOut => ["       Error: Command timed out after 30s"]
  | .err m => ["       Error: " ++ m]

/-- The `test` helper (lines 89-111): given the outcome of the guarded
`sandbox.process.exec` call, its returned exit code and its printed lines. -/
def test (description command : String) (o : CallOutcome) : Int × List String :=
  (exitCodeOf o,
   ["[TEST] " ++ description, "       Command: " ++ command] ++ tailPrints o)

/-- Timing semantics of `signal.alarm(deadline)` around a blocking remote call
that would take `duration` seconds and produce `r`: if the deadline elapses
first the alarm fires, `timeout_handler` raises `TimeoutError`, and the
elapsed time is the deadline itself; otherwise the call returns normally
after `duration`. -/
def alarmGuardedExec (deadline duration : Nat) (r : ExecResult) :
    CallOutcome × Nat :=
  if duration < deadline then (CallOutcome.ok r, duration)
  else (CallOutcome.timedOut, deadline)

/-- `test` composed with the timing semantics at the source's fixed deadline
of 30 seconds (`signal.alarm(30)`, line 94): result plus elapsed seconds. -/
def testTimed (description command : String) (duration : Nat) (r : ExecResult) :
    (Int × List String) × Nat :=
  ((test description command (alarmGuardedExec 30 duration r).1),
   (alarmGuardedExec 30 duration r).2)

/-- C2: `test` always returns exactly one exit code: the remote exit code
unmodified on a normal return; the sentinel `-1` plus a printed timeout
message on timeout; the sentinel `-1` plus the exception's printed message on
any other exception. -/
theorem test_result_total (d c : String) :
    (∀ r : ExecResult, (test d c (CallOutcome.ok r)).1 = r.exit_code) ∧
    ((test d c CallOutcome.timedOut).1 = -1 ∧
      "       Error: Command timed out after 30s" ∈
        (test d c CallOutcome.timedOut).2) ∧
    (∀ m : String, (test d c (CallOutcome.err m)).1 = -1 ∧
      "       Error: " ++ m ∈ (test d c (CallOutcome.err m)).2) := by
  refine ⟨fun r => rfl, ⟨rfl, ?_⟩, fun m => ⟨rfl, ?_⟩⟩ <;>
    simp [test, tailPrints]

/-- C4: a remote call that would block for 60 seconds, twice the configured
30-second deadline, yields the sentinel `-1` and a timeout message, and the
guarded invocation takes exactly the deadline (30 s), strictly less than the
call's own 60-second duration: it never hangs past its per-call budget. -/
theorem timeout_fidelity (d c : String) (r : ExecResult) :
    (testTimed d c 60 r).1.1 = -1 ∧
    "       Error: Command timed out after 30s" ∈ (testTimed d c 60 r).1.2 ∧
    (testTimed d c 60 r).2 = 30 ∧ (testTimed d c 60 r).2 < 60 := by
  refine ⟨rfl, ?_, rfl, by norm_num [testTimed, alarmGuardedExec]⟩
  simp [testTimed, alarmGuardedExec, test, tailPrints]

/-- C5: output longer than 150 characters is cut to its first 150 characters
(exactly 150 of them) and suffixed with the marker `"..."`; output of at most
150 characters is passed through unchanged. -/
theorem output_truncation (s : PyStr) :
    (150 < s.length →
      truncateOutput s = s.take 150 ++ pyString "..." ∧
      (s.take 150).length = 150) ∧
    (s.length ≤ 150 → truncateOutput s = s) := by
  constructor
  · intro h
    refine ⟨by rw [truncateOutput, if_pos h], ?_⟩
    rw [List.length_take]
    omega
  · intro h
    rw [truncateOutput, if_neg (by omega)]

/-- Witness for C5: a 151-character output is truncated; a short one is not. -/
theorem output_truncation_witness :
    (truncateOutput (List.replicate 151 'a') =
       (List.replicate 151 'a').take 150 ++ pyString "..." ∧
     ((List.replicate 151 'a').take 150).length = 150) ∧
    truncateOutput (pyString "ok") = pyString "ok" :=
  ⟨(output_truncation (List.replicate 151 'a')).1 (by simp),
   (output_truncation (pyString "ok")).2 (by simp [pyString])⟩

/-- C6 counterexample: the output `" "` (one space) is non-empty, so the code
strips it to the empty string and reports that, not the `"(no output)"`
placeholder — the placeholder is substituted only for raw-empty output,
contrary to the claim that every output empty after trimming becomes the
placeholder. -/
theorem whitespace_output_counterexample :
    pyStrip (pyString " ") = [] ∧
    normalizeOutput (some (pyString " ")) = [] ∧
    normalizeOutput (some (pyString " ")) ≠ pyString "(no output)" := by
  decide

/-- C6 (amended): the placeholder `"(no output)"` is substituted exactly when
the raw captured output is absent or empty; any non-empty output is only
trimmed, so a whitespace-only output is reported as the empty string. -/
theorem output_normalization (r : Option PyStr) :
    (r = none → normalizeOutput r = pyString "(no output)") ∧
    (r = some [] → normalizeOutput r = pyString "(no output)") ∧
    (∀ s : PyStr, r = some s → s ≠ [] →
      normalizeOutput r = pyStrip s) := by
  refine ⟨fun h => by rw [h, normalizeOutput], fun h => by rw [h]; rfl,
    fun s h hs => ?_⟩
  rw [h, normalizeOutput]
  simp [hs]

/-- Witness for C6 (amended): concrete instances of all three branches. -/
theorem output_normalization_witness :
    normalizeOutput none = pyString "(no output)" ∧
    normalizeOutput (some []) = pyString "(no output)" ∧
    normalizeOutput (some (pyString " x ")) = pyStrip (pyString " x ") :=
  ⟨(output_normalization none).1 rfl,
   (output_normalization (some [])).2.1 rfl,
   (output_normalization (some (pyString " x "))).2.2 (pyString " x ") rfl
     (by decide)⟩

/-- One externally visible action of a run of `main`: a printed line, a fatal
exit, a remote call to the provisioning collaborator (`create`, `get`,
`delete`) or to the execution endpoint (`exec`), a sleep, or an alarm
arm/disarm (`signal.alarm(n)` / `signal.alarm(0)`). -/
inductive Event where
  | print (line : String)
  | exitProgram (code : Nat)
  | createCall (snapshot : String)
  | getCall (id : String)
  | sleep (seconds : Nat)
  | armAlarm (seconds : Nat)
  | execCall (command : String) (timeout : Nat)
  | disarmAlarm
  | deleteCall (id : String)
deriving DecidableEq

/-- How one readiness-poll attempt's remote calls end: the `daytona.get`
refresh raises, or the probe `exec` returns with an exit code, times out
(the alarm fires), or raises some other exception. -/
inductive ProbeOutcome where
  | refreshErr (msg : String)
  | execOk (exit_code : Int)
  | execTimedOut
  | execErr (msg : String)
deriving DecidableEq

/-- The events of one iteration of the readiness loop (lines 63-82):
sleep 5, refresh the handle, then — unless the refresh raised — arm the
5-second alarm, issue the probe, disarm; each `except` branch calls
`signal.alarm(0)` and prints before the loop continues. -/
def attemptTrace (sandboxId : String) (i : Nat) (o : ProbeOutcome) :
    List Event :=
  match o with
  | .refreshErr m =>
      [Event.sleep 5, Event.getCall sandboxId, Event.disarmAlarm,
       Event.print ("    Error: " ++ m ++ " - retrying...")]
  | .execOk c =>
      if c = 0 then
        [Event.sleep 5, Event.getCall sandboxId, Event.armAlarm 5,
         Event.execCall "echo ready" 5, Event.disarmAlarm,
         Event.print ("    Sandbox ready after " ++ toString ((i + 1) * 5) ++ "s")]
      else
        [Event.sleep 5, Event.getCall sandboxId, Event.armAlarm 5,
         Event.execCall "echo ready" 5, Event.disarmAlarm]
  | .execTimedOut =>
      [Event.sleep 5, Event.getCall sandboxId, Event.armAlarm 5,
       Event.execCall "echo ready" 5, Event.disarmAlarm,
       Event.print ("    Waiting... (" ++ toString ((i + 1) * 5) ++ "s)")]
  | .execErr m =>
      [Event.sleep 5, Event.getCall sandboxId, Event.armAlarm 5,
       Event.execCall "echo ready" 5, Event.disarmAlarm,
       Event.print ("    Error: " ++ m ++ " - retrying...")]

/-- Whether a poll attempt's probe broke the loop: the probe `exec` returned
and its exit code was 0 (`if result.exit_code == 0`, line 71). -/
def probeSucceeds : ProbeOutcome → Bool
  | ProbeOutcome.execOk c => c == 0
  | _ => false

/-- The readiness loop from attempt `i` with `fuel` attempts left: its events
and whether `sandbox_ready` was set. The loop breaks exactly when a probe
returns exit code 0; a non-zero exit code, a timeout, a probe exception, or a
refresh exception all fall through to the next attempt. -/
def pollFrom (probe : Nat → ProbeOutcome) (sandboxId : String) :
    Nat → Nat → List Event × Bool
  | _, 0 => ([], false)
  | i, fuel + 1 =>
    if probeSucceeds (probe i) then (attemptTrace sandboxId i (probe i), true)
    else
      (attemptTrace sandboxId i (probe i) ++
         (pollFrom probe sandboxId (i + 1) fuel).1,
       (pollFrom probe sandboxId (i + 1) fuel).2)

/-- The events of one `test(description, command)` call: the two header
prints, the 30-second arm, the guarded `exec`, the disarm (run on the normal
path and in both `except` handlers), then the outcome's prints. -/
def scenarioEvents (description command : String) (o : CallOutcome) :
    List Event :=
  [Event.print ("[TEST] " ++ description),
   Event.print ("       Command: " ++ command),
   Event.armAlarm 30, Event.execCall command 30, Event.disarmAlarm] ++
  (tailPrints o).map Event.print

/-- The events of the scenario battery from scenario index `i` on: every
scenario runs, whatever the outcome of the previous ones. -/
def scenariosTrace (execOutcome : Nat → CallOutcome) :
    Nat → List (String × String) → List Event
  | _, [] => []
  | i, (d, c) :: rest =>
    scenarioEvents d c (execOutcome i) ++ scenariosTrace execOutcome (i + 1) rest

/-- The exit codes returned by the `test` calls of the scenario battery. -/
def runScenarios (execOutcome : Nat → CallOutcome) :
    Nat → List (String × String) → List Int
  | _, [] => []
  | i, (d, c) :: rest =>
    (test d c (execOutcome i)).1 :: runScenarios execOutcome (i + 1) rest

/-- The responses of the remote collaborators during one run: the id of the
sandbox `daytona.create` returns (`daytona.get(id)` returns a handle with the
same id), the outcome of each readiness-poll attempt, and the outcome of each
scenario's guarded `exec`. -/
structure Oracle where
  sandboxId : String
  probe : Nat → ProbeOutcome
  execOutcome : Nat → CallOutcome

/-- The trace of the missing-credential path (lines 29-31). -/
def keyMissingTrace : List Event :=
  [Event.print "Error: DAYTONA_API_KEY environment variable not set",
   Event.exitProgram 1]

/-- The full trace of `main` (lines 27-383) over a given scenario battery:
the credential check (`os.environ.get` is falsy for an absent or empty
value), sandbox creation, the readiness loop with its soft-failure warning,
the scenario battery, and the `finally` block that deletes the sandbox. -/
def mainTraceWith (apiKey : Option String) (ora : Oracle)
    (scenarios : List (String × String)) : List Event :=
  match apiKey with
  | none => keyMissingTrace
  | some k =>
    if k = "" then keyMissingTrace
    else
      [Event.print "[1] Connecting to Daytona...",
       Event.print "[2] Creating sandbox from agentsh-sandbox-v29 snapshot...",
       Event.createCall "agentsh-sandbox-v29",
       Event.print ("    Sandbox ID: " ++ ora.sandboxId),
       Event.print "[3] Waiting for agentsh daemon to initialize..."] ++
      (pollFrom ora.probe ora.sandboxId 0 10).1 ++
      (if (pollFrom ora.probe ora.sandboxId 0 10).2 then []
       else [Event.print "    Warning: Sandbox may not be fully ready after 50s"]) ++
      scenariosTrace ora.execOutcome 0 scenarios ++
      [Event.print "[CLEANUP] Deleting sandbox...",
       Event.deleteCall ora.sandboxId,
       Event.print ("    Sandbox " ++ ora.sandboxId ++ " deleted.")]

/-- The scenario battery hard-coded in `main` (lines 118-319), in source
order: (description, command). -/
def allScenarios : List (String × String) :=
  [("whoami - Current user", "whoami"),
   ("id - User info", "id"),
   ("pwd - Working directory", "pwd"),
   ("ls - List files", "ls -la /home/daytona | head -5"),
   ("agentsh version", "/usr/bin/agentsh --version"),
   ("HTTPS_PROXY is set", "echo $HTTPS_PROXY"),
   ("FUSE mounted - agentsh filesystem interception active",
    "mount | grep agentsh || echo 'FUSE NOT MOUNTED'"),
   ("BASH_ENV active - builtin disabling enabled", "echo $BASH_ENV"),
   ("kill builtin disabled - should not be a shell builtin", "type kill 2>&1"),
   ("agentsh security mode", "/usr/bin/agentsh detect 2>&1 | head -10"),
   ("sudo whoami - SHOULD BE BLOCKED", "sudo whoami 2>&1"),
   ("su root - SHOULD BE BLOCKED", "su root -c whoami 2>&1"),
   ("kill -9 1 - SHOULD BE BLOCKED", "kill -9 1 2>&1"),
   ("Write to workspace - SHOULD BE ALLOWED",
    "echo 'hello' > /home/daytona/test_write.txt && cat /home/daytona/test_write.txt"),
   ("Read from workspace - SHOULD BE ALLOWED", "cat /home/daytona/test_write.txt"),
   ("Write to /etc/test - SHOULD BE BLOCKED", "echo 'hack' > /etc/test_file 2>&1"),
   ("Read /proc/1/environ - may leak env vars in containers",
    "cat /proc/1/environ 2>&1 | tr '\\0' '\\n' | head -3"),
   ("Write to /usr/bin - SHOULD BE BLOCKED", "echo 'x' > /usr/bin/evil 2>&1"),
   ("Write to /var/evil - SHOULD BE BLOCKED", "echo 'x' > /var/evil 2>&1"),
   ("Read /usr/bin/ls (stat) - SHOULD BE ALLOWED", "ls -la /usr/bin/ls 2>&1"),
   ("Write to /tmp - SHOULD BE ALLOWED",
    "echo 'temp' > /tmp/test_file.txt && cat /tmp/test_file.txt"),
   ("curl evil.com - SHOULD BE BLOCKED (400)",
    "curl -s -v https://evil.com 2>&1 | grep -E '(400|Bad Request|CONNECT)'"),
   ("curl evil.com HTTP status",
    "curl -s -o /dev/null -w '%{http_code}' --connect-timeout 5 https://evil.com 2>&1"),
   ("env runs sudo - SHOULD BE BLOCKED", "env sudo whoami 2>&1"),
   ("xargs spawns sudo - SHOULD BE BLOCKED", "echo whoami | xargs sudo 2>&1"),
   ("find -exec runs sudo - SHOULD BE BLOCKED",
    "find /tmp -maxdepth 0 -exec sudo whoami \\; 2>&1"),
   ("Nested script runs sudo - SHOULD BE BLOCKED",
    "echo '#!/bin/sh\nsudo whoami' > /tmp/escalate.sh && chmod +x /tmp/escalate.sh && /tmp/escalate.sh 2>&1"),
   ("Direct /usr/bin/sudo - SHOULD BE BLOCKED", "/usr/bin/sudo whoami 2>&1"),
   ("Python subprocess sudo - SHOULD BE BLOCKED",
    "python3 -c \"import subprocess; r=subprocess.run(['sudo','whoami'], capture_output=True, text=True); print(r.stdout or r.stderr)\" 2>&1"),
   ("Python os.system kill - SHOULD BE BLOCKED",
    "python3 -c \"import os; os.system('kill -9 1')\" 2>&1"),
   ("env runs whoami - SHOULD BE ALLOWED", "env whoami 2>&1"),
   ("Python subprocess ls - SHOULD BE ALLOWED",
    "python3 -c \"import subprocess; r=subprocess.run(['ls','/home/daytona'], capture_output=True, text=True); print(r.stdout[:80])\" 2>&1"),
   ("cp to /etc - SHOULD BE BLOCKED", "cp /etc/hosts /etc/hosts_copy 2>&1"),
   ("touch /etc/newfile - SHOULD BE BLOCKED", "touch /etc/newfile 2>&1"),
   ("dd write to /etc - SHOULD BE BLOCKED",
    "dd if=/dev/zero of=/etc/dd_test bs=1 count=1 2>&1"),
   ("tee write to /usr/bin - SHOULD BE BLOCKED", "echo x | tee /usr/bin/evil 2>&1"),
   ("mkdir in /etc - SHOULD BE BLOCKED", "mkdir /etc/testdir 2>&1"),
   ("Symlink escape to /etc/shadow - SHOULD BE BLOCKED",
    "ln -sf /etc/shadow /tmp/shadow_link && cat /tmp/shadow_link 2>&1"),
   ("Python read /etc/shadow - SHOULD BE BLOCKED",
    "python3 -c \"print(open('/etc/shadow').read())\" 2>&1"),
   ("Python write to /etc - SHOULD BE BLOCKED",
    "python3 -c \"open('/etc/fuse_test','w').write('hack')\" 2>&1"),
   ("Python write to /usr/bin - SHOULD BE BLOCKED",
    "python3 -c \"open('/usr/bin/evil','w').write('x')\" 2>&1"),
   ("Python list /root - SHOULD BE BLOCKED",
    "python3 -c \"import os; print(os.listdir('/root'))\" 2>&1"),
   ("cp in workspace - SHOULD BE ALLOWED",
    "echo 'original' > /home/daytona/cp_src.txt && cp /home/daytona/cp_src.txt /home/daytona/cp_dst.txt && cat /home/daytona/cp_dst.txt"),
   ("touch in /tmp - SHOULD BE ALLOWED",
    "touch /tmp/fuse_test_file && ls -la /tmp/fuse_test_file 2>&1"),
   ("Python write to workspace - SHOULD BE ALLOWED",
    "python3 -c \"open('/home/daytona/py_test.txt','w').write('hello from python')\" && cat /home/daytona/py_test.txt"),
   ("Python write to /tmp - SHOULD BE ALLOWED",
    "python3 -c \"open('/tmp/py_test.txt','w').write('temp from python')\" && cat /tmp/py_test.txt"),
   ("Create file for soft-delete test",
    "echo 'important data' > soft_delete_test.txt && cat soft_delete_test.txt"),
   ("rm file - SHOULD BE SOFT-DELETED (moved to trash)",
    "rm soft_delete_test.txt 2>&1 && echo 'rm exited 0'"),
   ("Verify file is gone from original location",
    "ls soft_delete_test.txt 2>&1 || echo 'file gone (expected)'"),
   ("agentsh trash list - SHOULD SHOW soft-deleted file",
    "/usr/bin/agentsh trash list 2>&1"),
   ("Restore soft-deleted file via agentsh trash restore",
    "token=$(/usr/bin/agentsh trash list 2>&1 | grep soft_delete_test | head -1 | cut -f1) && /usr/bin/agentsh trash restore $token 2>&1"),
   ("Verify restored file has original content", "cat soft_delete_test.txt 2>&1")]

/-- The trace of `main` as shipped: the hard-coded scenario battery. -/
def mainTrace (apiKey : Option String) (ora : Oracle) : List Event :=
  mainTraceWith apiKey ora allScenarios

/-- Whether an event is a `daytona.delete` call. -/
def isDeleteCall : Event → Bool
  | Event.deleteCall _ => true
  | _ => false

/-- Whether an event is any remote interaction (provisioning or execution). -/
def isRemoteCall : Event → Bool
  | Event.createCall _ => true
  | Event.getCall _ => true
  | Event.execCall _ _ => true
  | Event.deleteCall _ => true
  | _ => false

/-- Whether an event is the inter-attempt sleep of the readiness loop. -/
def isSleep : Event → Bool
  | Event.sleep _ => true
  | _ => false

/-- The command of an event, when the event is an `exec` call. -/
def execCommandOf : Event → Option String
  | Event.execCall c _ => some c
  | _ => none

/-- The commands of the `exec` calls of a trace, in order. -/
def execCommands (tr : List Event) : List String :=
  tr.filterMap execCommandOf

/-- The alarm state after one event: `signal.alarm(n)` arms, `signal.alarm(0)`
disarms, every other action leaves the alarm alone. -/
def alarmStep (armed : Bool) (e : Event) : Bool :=
  match e with
  | Event.armAlarm _ => true
  | Event.disarmAlarm => false
  | _ => armed

/-- The alarm state after a sequence of events, from a given initial state. -/
def armedFrom (armed : Bool) (tr : List Event) : Bool :=
  tr.foldl alarmStep armed

/-- The alarm state after a sequence of events of a fresh run (disarmed). -/
def armedAfter (tr : List Event) : Bool :=
  armedFrom false tr

/-- Whether an event may happen while the alarm is armed: only the guarded
blocking call itself and the disarm that closes it. -/
def isGuardedStep : Event → Bool
  | Event.execCall _ _ => true
  | Event.disarmAlarm => true
  | _ => false

/-- A trace respects the alarm discipline: it ends with the alarm disarmed,
and at any point where the alarm is armed the only step that may happen is
the guarded blocking call itself or the disarm that closes it. -/
def AlarmClean (tr : List Event) : Prop :=
  armedAfter tr = false ∧
  ∀ i e, tr[i]? = some e → armedAfter (tr.take i) = true → isGuardedStep e = true

theorem armedFrom_append (b : Bool) (l₁ l₂ : List Event) :
    armedFrom b (l₁ ++ l₂) = armedFrom (armedFrom b l₁) l₂ := by
  simp [armedFrom]

theorem armedAfter_cons (e : Event) (tr : List Event) :
    armedAfter (e :: tr) = armedFrom (alarmStep false e) tr := rfl

theorem alarmClean_nil : AlarmClean [] := by
  refine ⟨rfl, ?_⟩
  intro i e he _
  simp at he

theorem alarmClean_cons {e : Event} {tr : List Event}
    (hp : alarmStep false e = false) (h : AlarmClean tr) :
    AlarmClean (e :: tr) := by
  obtain ⟨h₁, h₂⟩ := h
  constructor
  · rw [armedAfter_cons, hp]
    exact h₁
  · intro i e' he harm
    match i with
    | 0 =>
      rw [List.take_zero] at harm
      exact absurd harm (by decide)
    | i + 1 =>
      simp only [List.getElem?_cons_succ] at he
      rw [List.take_succ_cons, armedAfter_cons, hp] at harm
      exact h₂ i e' he harm

theorem alarmClean_guarded_cons {n t : Nat} {c : String} {tr : List Event}
    (h : AlarmClean tr) :
    AlarmClean (Event.armAlarm n :: Event.execCall c t ::
      Event.disarmAlarm :: tr) := by
  obtain ⟨h₁, h₂⟩ := h
  constructor
  · exact h₁
  · intro i e' he harm
    match i with
    | 0 =>
      rw [List.take_zero] at harm
      exact absurd harm (by decide)
    | 1 =>
      simp only [List.getElem?_cons_succ, List.getElem?_cons_zero] at he
      cases he
      rfl
    | 2 =>
      simp only [List.getElem?_cons_succ, List.getElem?_cons_zero] at he
      cases he
      rfl
    | i + 3 =>
      simp only [List.getElem?_cons_succ] at he
      exact h₂ i e' he harm

theorem alarmClean_append {l₁ l₂ : List Event}
    (h₁ : AlarmClean l₁) (h₂ : AlarmClean l₂) : AlarmClean (l₁ ++ l₂) := by
  obtain ⟨f₁, g₁⟩ := h₁
  obtain ⟨f₂, g₂⟩ := h₂
  constructor
  · rw [armedAfter, armedFrom_append]
    rw [armedAfter] at f₁
    rw [f₁]
    exact f₂
  · intro i e he harm
    rw [List.take_append_eq_append_take] at harm
    by_cases hi : i < l₁.length
    · rw [List.getElem?_append_left hi] at he
      have hz : i - l₁.length = 0 := by omega
      rw [hz, List.take_zero, List.append_nil] at harm
      exact g₁ i e he harm
    · push_neg at hi
      rw [List.getElem?_append_right hi] at he
      have hall : l₁.take i = l₁ := List.take_of_length_le hi
      rw [hall, armedAfter, armedFrom_append] at harm
      rw [armedAfter] at f₁
      rw [f₁] at harm
      exact g₂ (i - l₁.length) e he harm

/-- Every list of printed lines is alarm-neutral. -/
theorem alarmClean_prints (ls : List String) :
    AlarmClean (ls.map Event.print) := by
  induction ls with
  | nil => exact alarmClean_nil
  | cons a ls ih => exact alarmClean_cons rfl ih

theorem alarmClean_attemptTrace (sb : String) (i : Nat) (o : ProbeOutcome) :
    AlarmClean (attemptTrace sb i o) := by
  cases o with
  | refreshErr m =>
    exact alarmClean_cons rfl (alarmClean_cons rfl
      (alarmClean_cons rfl (alarmClean_cons rfl alarmClean_nil)))
  | execOk c =>
    rw [attemptTrace]
    by_cases hc : c = 0
    · rw [if_pos hc]
      exact alarmClean_cons rfl (alarmClean_cons rfl (alarmClean_guarded_cons
        (alarmClean_cons rfl alarmClean_nil)))
    · rw [if_neg hc]
      exact alarmClean_cons rfl (alarmClean_cons rfl
        (alarmClean_guarded_cons alarmClean_nil))
  | execTimedOut =>
    exact alarmClean_cons rfl (alarmClean_cons rfl (alarmClean_guarded_cons
      (alarmClean_cons rfl alarmClean_nil)))
  | execErr m =>
    exact alarmClean_cons rfl (alarmClean_cons rfl (alarmClean_guarded_cons
      (alarmClean_cons rfl alarmClean_nil)))

theorem alarmClean_pollFrom (probe : Nat → ProbeOutcome) (sb : String) :
    ∀ fuel i, AlarmClean (pollFrom probe sb i fuel).1 := by
  intro fuel
  induction fuel with
  | zero => intro i; exact alarmClean_nil
  | succ f ih =>
    intro i
    rw [pollFrom]
    by_cases hp : probeSucceeds (probe i) = true
    · rw [if_pos hp]
      exact alarmClean_attemptTrace sb i (probe i)
    · rw [if_neg hp]
      exact alarmClean_append (alarmClean_attemptTrace sb i (probe i)) (ih (i + 1))

theorem alarmClean_scenarioEvents (d c : String) (o : CallOutcome) :
    AlarmClean (scenarioEvents d c o) :=
  alarmClean_cons rfl (alarmClean_cons rfl (alarmClean_guarded_cons
    (alarmClean_prints (tailPrints o))))

theorem alarmClean_scenariosTrace (execOutcome : Nat → CallOutcome) :
    ∀ scenarios i, AlarmClean (scenariosTrace execOutcome i scenarios) := by
  intro scenarios
  induction scenarios with
  | nil => intro i; exact alarmClean_nil
  | cons s rest ih =>
    intro i
    obtain ⟨d, c⟩ := s
    exact alarmClean_append (alarmClean_scenarioEvents d c (execOutcome i)) (ih (i + 1))

theorem alarmClean_keyMissingTrace : AlarmClean keyMissingTrace :=
  alarmClean_cons rfl (alarmClean_cons rfl alarmClean_nil)

theorem alarmClean_mainTraceWith (apiKey : Option String) (ora : Oracle)
    (scenarios : List (String × String)) :
    AlarmClean (mainTraceWith apiKey ora scenarios) := by
  cases apiKey with
  | none => exact alarmClean_keyMissingTrace
  | some k =>
    rw [mainTraceWith]
    by_cases hk : k = ""
    · rw [if_pos hk]
      exact alarmClean_keyMissingTrace
    · rw [if_neg hk]
      refine alarmClean_append (alarmClean_append (alarmClean_append
        (alarmClean_append ?_ (alarmClean_pollFrom ora.probe ora.sandboxId 10 0))
        ?_) (alarmClean_scenariosTrace ora.execOutcome scenarios 0)) ?_
      · exact alarmClean_cons rfl (alarmClean_cons rfl (alarmClean_cons rfl
          (alarmClean_cons rfl (alarmClean_cons rfl alarmClean_nil))))
      · by_cases hr : (pollFrom ora.probe ora.sandboxId 0 10).2 = true
        · rw [if_pos hr]
          exact alarmClean_nil
        · rw [if_neg hr]
          exact alarmClean_cons rfl alarmClean_nil
      · exact alarmClean_cons rfl (alarmClean_cons rfl
          (alarmClean_cons rfl alarmClean_nil))

theorem filter_delete_attemptTrace (sb : String) (i : Nat) (o : ProbeOutcome) :
    (attemptTrace sb i o).filter isDeleteCall = [] := by
  cases o with
  | execOk c =>
    rw [attemptTrace]
    by_cases hc : c = 0
    · rw [if_pos hc]; rfl
    · rw [if_neg hc]; rfl
  | refreshErr m => rfl
  | execTimedOut => rfl
  | execErr m => rfl

theorem filter_delete_pollFrom (probe : Nat → ProbeOutcome) (sb : String) :
    ∀ fuel i, (pollFrom probe sb i fuel).1.filter isDeleteCall = [] := by
  intro fuel
  induction fuel with
  | zero => intro i; rfl
  | succ f ih =>
    intro i
    rw [pollFrom]
    by_cases hp : probeSucceeds (probe i) = true
    · rw [if_pos hp]
      exact filter_delete_attemptTrace sb i (probe i)
    · rw [if_neg hp]
      show (attemptTrace sb i (probe i) ++
        (pollFrom probe sb (i + 1) f).1).filter isDeleteCall = []
      rw [List.filter_append, filter_delete_attemptTrace, ih (i + 1)]
      rfl

theorem filter_delete_prints (ls : List String) :
    (ls.map Event.print).filter isDeleteCall = [] := by
  induction ls with
  | nil => rfl
  | cons a ls ih => exact ih

theorem filter_delete_scenarioEvents (d c : String) (o : CallOutcome) :
    (scenarioEvents d c o).filter isDeleteCall = [] := by
  rw [scenarioEvents, List.filter_append, filter_delete_prints]
  rfl

theorem filter_delete_scenariosTrace (ex : Nat → CallOutcome) :
    ∀ scenarios i, (scenariosTrace ex i scenarios).filter isDeleteCall = [] := by
  intro scenarios
  induction scenarios with
  | nil => intro i; rfl
  | cons s rest ih =>
    intro i
    obtain ⟨d, c⟩ := s
    rw [scenariosTrace, List.filter_append, filter_delete_scenarioEvents,
      ih (i + 1)]
    rfl

theorem countP_sleep_attemptTrace (sb : String) (i : Nat) (o : ProbeOutcome) :
    (attemptTrace sb i o).countP isSleep = 1 := by
  cases o with
  | execOk c =>
    rw [attemptTrace]
    by_cases hc : c = 0
    · rw [if_pos hc]; rfl
    · rw [if_neg hc]; rfl
  | refreshErr m => rfl
  | execTimedOut => rfl
  | execErr m => rfl

theorem pollFrom_sleep_le (probe : Nat → ProbeOutcome) (sb : String) :
    ∀ fuel i, (pollFrom probe sb i fuel).1.countP isSleep ≤ fuel := by
  intro fuel
  induction fuel with
  | zero => intro i; exact Nat.le_refl 0
  | succ f ih =>
    intro i
    rw [pollFrom]
    by_cases hp : probeSucceeds (probe i) = true
    · rw [if_pos hp, countP_sleep_attemptTrace]
      omega
    · rw [if_neg hp]
      show (attemptTrace sb i (probe i) ++
        (pollFrom probe sb (i + 1) f).1).countP isSleep ≤ f + 1
      rw [List.countP_append, countP_sleep_attemptTrace]
      have := ih (i + 1)
      omega

theorem pollFrom_first_success (probe : Nat → ProbeOutcome) (sb : String) :
    ∀ fuel i j, j < fuel → probeSucceeds (probe (i + j)) = true →
      (∀ l, l < j → probeSucceeds (probe (i + l)) = false) →
      (pollFrom probe sb i fuel).2 = true ∧
      (pollFrom probe sb i fuel).1.countP isSleep = j + 1 := by
  intro fuel
  induction fuel with
  | zero => intro i j hj; omega
  | succ f ih =>
    intro i j hj hs hprev
    rw [pollFrom]
    cases j with
    | zero =>
      rw [Nat.add_zero] at hs
      rw [if_pos hs]
      exact ⟨rfl, countP_sleep_attemptTrace sb i (probe i)⟩
    | succ j' =>
      have h0 : probeSucceeds (probe i) = false := by
        simpa using hprev 0 (Nat.succ_pos j')
      rw [if_neg (by simp [h0])]
      have hs' : probeSucceeds (probe (i + 1 + j')) = true := by
        have harith : i + 1 + j' = i + (j' + 1) := by omega
        rw [harith]; exact hs
      have hprev' : ∀ l, l < j' → probeSucceeds (probe (i + 1 + l)) = false := by
        intro l hl
        have harith : i + 1 + l = i + (l + 1) := by omega
        rw [harith]; exact hprev (l + 1) (by omega)
      have hrec := ih (i + 1) j' (by omega) hs' hprev'
      refine ⟨hrec.1, ?_⟩
      show (attemptTrace sb i (probe i) ++
        (pollFrom probe sb (i + 1) f).1).countP isSleep = j' + 1 + 1
      rw [List.countP_append, countP_sleep_attemptTrace, hrec.2]
      omega

theorem pollFrom_exhausted (probe : Nat → ProbeOutcome) (sb : String) :
    ∀ fuel i, (∀ l, l < fuel → probeSucceeds (probe (i + l)) = false) →
      (pollFrom probe sb i fuel).2 = false ∧
      (pollFrom probe sb i fuel).1.countP isSleep = fuel := by
  intro fuel
  induction fuel with
  | zero => intro i _; exact ⟨rfl, rfl⟩
  | succ f ih =>
    intro i hall
    rw [pollFrom]
    have h0 : probeSucceeds (probe i) = false := by
      simpa using hall 0 (by omega)
    rw [if_neg (by simp [h0])]
    have hrec := ih (i + 1) (fun l hl => by
      have harith : i + 1 + l = i + (l + 1) := by omega
      rw [harith]; exact hall (l + 1) (by omega))
    refine ⟨hrec.1, ?_⟩
    show (attemptTrace sb i (probe i) ++
      (pollFrom probe sb (i + 1) f).1).countP isSleep = f + 1
    rw [List.countP_append, countP_sleep_attemptTrace, hrec.2]
    omega

theorem execCommands_attemptTrace (sb : String) (i : Nat) (o : ProbeOutcome) :
    ∀ c, c ∈ execCommands (attemptTrace sb i o) → c = "echo ready" := by
  cases o with
  | refreshErr m =>
    intro c hc
    simp [attemptTrace, execCommands, execCommandOf] at hc
  | execOk c' =>
    intro c hc
    rw [attemptTrace] at hc
    by_cases h0 : c' = 0
    · rw [if_pos h0] at hc
      simpa [execCommands, execCommandOf] using hc
    · rw [if_neg h0] at hc
      simpa [execCommands, execCommandOf] using hc
  | execTimedOut =>
    intro c hc
    simpa [attemptTrace, execCommands, execCommandOf] using hc
  | execErr m =>
    intro c hc
    simpa [attemptTrace, execCommands, execCommandOf] using hc

theorem execCommands_pollFrom (probe : Nat → ProbeOutcome) (sb : String) :
    ∀ fuel i c, c ∈ execCommands (pollFrom probe sb i fuel).1 →
      c = "echo ready" := by
  intro fuel
  induction fuel with
  | zero =>
    intro i c hc
    simp [pollFrom, execCommands] at hc
  | succ f ih =>
    intro i c hc
    rw [pollFrom] at hc
    by_cases hp : probeSucceeds (probe i) = true
    · rw [if_pos hp] at hc
      exact execCommands_attemptTrace sb i (probe i) c hc
    · rw [if_neg hp] at hc
      have hc' : c ∈ execCommands (attemptTrace sb i (probe i) ++
          (pollFrom probe sb (i + 1) f).1) := hc
      rw [execCommands, List.filterMap_append] at hc'
      rcases List.mem_append.mp hc' with h | h
      · exact execCommands_attemptTrace sb i (probe i) c h
      · exact ih (i + 1) c h

theorem execCommands_prints (ls : List String) :
    execCommands (ls.map Event.print) = [] := by
  induction ls with
  | nil => rfl
  | cons a ls ih => exact ih

theorem execCommands_scenarioEvents (d c : String) (o : CallOutcome) :
    execCommands (scenarioEvents d c o) = [c] := by
  rw [scenarioEvents, execCommands, List.filterMap_append]
  rw [show List.filterMap execCommandOf ((tailPrints o).map Event.print) = []
    from execCommands_prints (tailPrints o)]
  rfl

theorem execCommands_scenariosTrace (ex : Nat → CallOutcome) :
    ∀ scenarios i, execCommands (scenariosTrace ex i scenarios) =
      scenarios.map Prod.snd := by
  intro scenarios
  induction scenarios with
  | nil => intro i; rfl
  | cons s rest ih =>
    intro i
    obtain ⟨d, c⟩ := s
    rw [scenariosTrace, execCommands, List.filterMap_append]
    rw [show List.filterMap execCommandOf (scenarioEvents d c (ex i)) = [c]
      from execCommands_scenarioEvents d c (ex i)]
    rw [show List.filterMap execCommandOf (scenariosTrace ex (i + 1) rest) =
      rest.map Prod.snd from ih (i + 1)]
    rfl

theorem execCommands_mainTraceWith (k : String) (hk : k ≠ "") (ora : Oracle)
    (scenarios : List (String × String)) :
    execCommands (mainTraceWith (some k) ora scenarios) =
      execCommands (pollFrom ora.probe ora.sandboxId 0 10).1 ++
        scenarios.map Prod.snd := by
  rw [mainTraceWith, if_neg hk, execCommands, List.filterMap_append,
    List.filterMap_append, List.filterMap_append, List.filterMap_append]
  have hW : List.filterMap execCommandOf
      (if (pollFrom ora.probe ora.sandboxId 0 10).2 = true then ([] : List Event)
       else [Event.print "    Warning: Sandbox may not be fully ready after 50s"]) =
      [] := by
    by_cases hr : (pollFrom ora.probe ora.sandboxId 0 10).2 = true
    · rw [if_pos hr]; rfl
    · rw [if_neg hr]; rfl
  rw [hW, show List.filterMap execCommandOf
      (scenariosTrace ora.execOutcome 0 scenarios) = scenarios.map Prod.snd
    from execCommands_scenariosTrace ora.execOutcome scenarios 0]
  simp [execCommands, execCommandOf]

theorem runScenarios_length (ex : Nat → CallOutcome) :
    ∀ scenarios i, (runScenarios ex i scenarios).length = scenarios.length := by
  intro scenarios
  induction scenarios with
  | nil => intro i; rfl
  | cons s rest ih =>
    intro i
    obtain ⟨d, c⟩ := s
    simp [runScenarios, ih (i + 1)]

/-- The responses used by the concrete witnesses: the probe succeeds at once,
every scenario exec returns output `"ok"` with exit code 0. -/
def oracleReady : Oracle where
  sandboxId := "sandbox-1"
  probe := fun _ => ProbeOutcome.execOk 0
  execOutcome := fun _ =>
    CallOutcome.ok { result := some (pyString "ok"), exit_code := 0 }

/-- A probe history for the witnesses: a timeout, then a probe error, then
success at the third attempt. -/
def probeLate : Nat → ProbeOutcome
  | 0 => ProbeOutcome.execTimedOut
  | 1 => ProbeOutcome.execErr "daemon not up"
  | 2 => ProbeOutcome.execOk 0
  | _ => ProbeOutcome.execOk 1

/-- C1: on every run whose credential check passes — whatever the outcomes of
the readiness probes (success, exhaustion, timeouts, probe or refresh
exceptions) and of the scenario execs (normal returns, timeouts, exceptions)
— the trace of `main` contains exactly one `daytona.delete` call, and it
carries the id of the sandbox that `daytona.create` returned. -/
theorem cleanup_exactly_once (k : String) (hk : k ≠ "") (ora : Oracle)
    (scenarios : List (String × String)) :
    (mainTraceWith (some k) ora scenarios).filter isDeleteCall =
      [Event.deleteCall ora.sandboxId] := by
  rw [mainTraceWith, if_neg hk, List.filter_append, List.filter_append,
    List.filter_append, List.filter_append, filter_delete_pollFrom,
    filter_delete_scenariosTrace]
  have hW : (if (pollFrom ora.probe ora.sandboxId 0 10).2 = true
        then ([] : List Event)
       else [Event.print "    Warning: Sandbox may not be fully ready after 50s"]).filter
      isDeleteCall = [] := by
    by_cases hr : (pollFrom ora.probe ora.sandboxId 0 10).2 = true
    · rw [if_pos hr]; rfl
    · rw [if_neg hr]; rfl
  rw [hW]
  rfl

/-- Witness for C1: a full concrete run over the source's scenario battery
deletes sandbox `"sandbox-1"` exactly once. -/
theorem cleanup_exactly_once_witness :
    (mainTrace (some "demo-key") oracleReady).filter isDeleteCall =
      [Event.deleteCall "sandbox-1"] :=
  cleanup_exactly_once "demo-key" (by decide) oracleReady allScenarios

/-- C3: the readiness poller spends at most 10 attempts (one 5-second sleep
each, and by `attemptTrace` each attempt is sleep, then refresh, then the
probe under the armed deadline); every probe command is `"echo ready"`; the
first attempt whose probe exits 0 sets readiness and stops the loop with
exactly that many attempts spent; probe timeouts and exceptions merely
continue the loop; if all 10 attempts fail the poller reports not-ready, and
the scenario battery runs in full regardless of the poll verdict. -/
theorem readiness_poller (probe : Nat → ProbeOutcome) (sb : String) :
    ((pollFrom probe sb 0 10).1.countP isSleep ≤ 10) ∧
    (∀ c, c ∈ execCommands (pollFrom probe sb 0 10).1 → c = "echo ready") ∧
    (∀ j, j < 10 → probeSucceeds (probe j) = true →
      (∀ l, l < j → probeSucceeds (probe l) = false) →
      (pollFrom probe sb 0 10).2 = true ∧
      (pollFrom probe sb 0 10).1.countP isSleep = j + 1) ∧
    ((∀ l, l < 10 → probeSucceeds (probe l) = false) →
      (pollFrom probe sb 0 10).2 = false ∧
      (pollFrom probe sb 0 10).1.countP isSleep = 10) ∧
    (∀ (ora : Oracle) (k : String) (scenarios : List (String × String)),
      k ≠ "" →
      execCommands (mainTraceWith (some k) ora scenarios) =
        execCommands (pollFrom ora.probe ora.sandboxId 0 10).1 ++
          scenarios.map Prod.snd) := by
  refine ⟨pollFrom_sleep_le probe sb 10 0, execCommands_pollFrom probe sb 10 0,
    ?_, ?_, ?_⟩
  · intro j hj hs hprev
    exact pollFrom_first_success probe sb 10 0 j hj (by simpa using hs)
      (fun l hl => by simpa using hprev l hl)
  · intro hall
    exact pollFrom_exhausted probe sb 10 0 (fun l hl => by simpa using hall l hl)
  · intro ora k scenarios hk
    exact execCommands_mainTraceWith k hk ora scenarios

/-- Witness for C3: with a timeout, then a probe error, then a success at the
third attempt, the poller reports ready after exactly 3 attempts. -/
theorem readiness_poller_witness :
    (pollFrom probeLate "sandbox-1" 0 10).2 = true ∧
    (pollFrom probeLate "sandbox-1" 0 10).1.countP isSleep = 3 :=
  (readiness_poller probeLate "sandbox-1").2.2.1 2 (by omega) (by decide)
    (fun l hl => by interval_cases l <;> decide)

/-- C7: the scenario runner is fire-and-continue: over every scenario
sequence and every assignment of outcomes (normal, timeout, exception) to
the remote calls, every scenario yields exactly one result, and the exec
calls issued are exactly the scenario commands, once each, in order. -/
theorem fire_and_continue (execOutcome : Nat → CallOutcome)
    (scenarios : List (String × String)) :
    (runScenarios execOutcome 0 scenarios).length = scenarios.length ∧
    execCommands (scenariosTrace execOutcome 0 scenarios) =
      scenarios.map Prod.snd :=
  ⟨runScenarios_length execOutcome scenarios 0,
   execCommands_scenariosTrace execOutcome scenarios 0⟩

/-- C8: along every trace of `main`, whenever the alarm is armed the only
steps that may occur are the guarded `exec` call itself and the
`signal.alarm(0)` that closes it — so each deadline is disarmed on every exit
path of its call, no event runs under a stale deadline, and a second arm can
only happen once the previous deadline is disarmed (at most one armed at any
time); the run ends disarmed. -/
theorem alarm_discipline (apiKey : Option String) (ora : Oracle)
    (scenarios : List (String × String)) :
    armedAfter (mainTraceWith apiKey ora scenarios) = false ∧
    (∀ i e, (mainTraceWith apiKey ora scenarios)[i]? = some e →
      armedAfter ((mainTraceWith apiKey ora scenarios).take i) = true →
      isGuardedStep e = true) :=
  alarmClean_mainTraceWith apiKey ora scenarios

/-- Witness for C8: at position 8 of a concrete run the alarm is armed, and
the event there is indeed the guarded probe `exec`. -/
theorem alarm_discipline_witness :
    isGuardedStep (Event.execCall "echo ready" 5) = true :=
  (alarm_discipline (some "demo-key") oracleReady []).2 8
    (Event.execCall "echo ready" 5) (by decide) (by decide)

/-- C9: with the credential absent, `main` prints the error and exits with
code 1, and its trace contains no remote interaction at all: no sandbox is
created, refreshed, probed, or deleted. -/
theorem missing_key_aborts (ora : Oracle)
    (scenarios : List (String × String)) :
    mainTraceWith none ora scenarios =
      [Event.print "Error: DAYTONA_API_KEY environment variable not set",
       Event.exitProgram 1] ∧
    (mainTraceWith none ora scenarios).filter isRemoteCall = [] :=
  ⟨rfl, rfl⟩

/-- C10: at every point of every trace of `main` where a `daytona.get`
refresh happens, the alarm is disarmed: the handle refresh is never bounded
by the deadline timer; only the subsequent probe `exec` runs under it. -/
theorem refresh_runs_unguarded (apiKey : Option String) (ora : Oracle)
    (scenarios : List (String × String)) :
    ∀ i id, (mainTraceWith apiKey ora scenarios)[i]? =
        some (Event.getCall id) →
      armedAfter ((mainTraceWith apiKey ora scenarios).take i) = false := by
  intro i id he
  cases harm : armedAfter ((mainTraceWith apiKey ora scenarios).take i) with
  | false => rfl
  | true =>
    have hg := (alarmClean_mainTraceWith apiKey ora scenarios).2 i _ he harm
    simp [isGuardedStep] at hg

/-- Witness for C10: at position 6 of a concrete run — the `daytona.get`
refresh of the first poll attempt — the alarm is disarmed. -/
theorem refresh_runs_unguarded_witness :
    armedAfter ((mainTraceWith (some "demo-key") oracleReady []).take 6) =
      false :=
  refresh_runs_unguarded (some "demo-key") oracleReady [] 6 "sandbox-1"
    (by decide)

end AgentshDaytona
